import Mathlib

/-!
Verification of the Wrangling Game API backend (src/backend/main.py).

The development shallowly embeds the decision logic of the backend:
the static challenge catalog `CHALLENGES`, the rubric scorer
`score_answer`, the catalog-backed endpoints `get_level` and
`submit_level`, the idempotent seed operation `seed_levels` over an
explicit table state, and the `config` introspection endpoint over an
explicit environment value.

Embedding conventions:
- Python strings are Lean `String`; character-level work is done on
  `String.data` (`List Char`) so that everything reduces in the kernel.
- Every `must_have` pattern in the source is a regex that is an
  alternation of literal words (the only metacharacter used is the bar),
  so `re.search(p, answer, re.IGNORECASE)` is embedded as: some
  alternative of `p` (split on the bar) is a case-insensitive substring
  of `answer`. Case-insensitivity is ASCII lowercasing on both sides.
- `answer.strip()` is embedded as dropping whitespace characters from
  both ends of the character list.
- Python ints are `Int` (path parameters may be negative).
- A raised `HTTPException` is `Except.error` carrying status and detail.
- The database environment variable is `Option String` (unset = `none`);
  Python truthiness `bool(s)` of a string is `s ≠ ""`.
- The levels table is an explicit state `Option (List LevelRow)`
  (`none` = table absent); `CREATE TABLE IF NOT EXISTS` materialises the
  empty table, and `INSERT ... ON CONFLICT (level_number) DO NOTHING` is
  an insert-if-absent keyed on `level_number`.
-/

/-- One catalog entry of `CHALLENGES` in src/backend/main.py. -/
structure Challenge where
  title : String
  goal : String
  task : String
  hint : String
  must_have : List String
  deriving Repr, DecidableEq

/-- The verdict dictionary returned by `score_answer`. -/
structure Verdict where
  passed : Bool
  hits : Nat
  required_hits : Nat
  matched : List String
  feedback : List String
  deriving Repr, DecidableEq

def challenge1 : Challenge :=
  { title := "The Data Detective"
    goal := "Inspect and understand messy data."
    task := "List 3 things you would check first in a messy dataset."
    hint := "Missing values, duplicates, data types, ranges/outliers."
    must_have := ["missing", "duplicate", "type|dtype|datetype|range|outlier"] }

def challenge2 : Challenge :=
  { title := "The Janitor’s Revenge"
    goal := "Clean missing values and duplicates."
    task := "Identify issues in the data and describe how you would fix missing values and duplicates."
    hint := "Drop vs impute; define duplicate keys; keep latest record."
    must_have := ["missing|null|nan", "duplicate|dedup", "impute|fill|median|mean|drop"] }

def challenge3 : Challenge :=
  { title := "The Filter Wizard"
    goal := "Filter and index data safely."
    task := "Explain how you would filter rows in pandas and avoid SettingWithCopyWarning."
    hint := "Use .loc and consider .copy()."
    must_have := ["loc", "copy|SettingWithCopy"] }

def challenge4 : Challenge :=
  { title := "The String Surgeon"
    goal := "Fix strings and dates."
    task := "How would you parse messy date strings into a datetime column in pandas?"
    hint := "pd.to_datetime(..., errors=\x27coerce\x27)"
    must_have := ["to_datetime", "errors|coerce"] }

def challenge5 : Challenge :=
  { title := "The Join Assassin"
    goal := "Join datasets without explosions."
    task := "Name 2 checks you do before joining tables to avoid row multiplication."
    hint := "Check key uniqueness, cardinality, duplicates."
    must_have := ["key", "unique|uniqueness", "cardinality|duplicate"] }

def challenge6 : Challenge :=
  { title := "The Shape Shifter"
    goal := "Reshape data correctly."
    task := "When would you use pivot vs melt? Give one example each."
    hint := "Wide vs long transformations."
    must_have := ["pivot", "melt|stack|unstack", "wide|long"] }

def challenge7 : Challenge :=
  { title := "The Data Alchemist"
    goal := "End-to-end wrangling challenge."
    task := "Outline an end-to-end data wrangling pipeline (steps + checks)."
    hint := "Ingest → validate → clean → transform → QA → output."
    must_have := ["validate|schema", "clean", "transform", "qa|check|test"] }

/-- The `CHALLENGES` dict of src/backend/main.py as a partial map on level
numbers (a Python dict lookup that can miss). -/
def CHALLENGES (level_number : Int) : Option Challenge :=
  if level_number = 1 then some challenge1
  else if level_number = 2 then some challenge2
  else if level_number = 3 then some challenge3
  else if level_number = 4 then some challenge4
  else if level_number = 5 then some challenge5
  else if level_number = 6 then some challenge6
  else if level_number = 7 then some challenge7
  else none

/-- Split a character list at every bar character: the alternatives of an
alternation-of-literals regex. -/
def splitAlts : List Char → List (List Char)
  | [] => [[]]
  | c :: cs =>
    if c = '|' then [] :: splitAlts cs
    else
      match splitAlts cs with
      | [] => [[c]]
      | a :: rest => (c :: a) :: rest

/-- ASCII lowercasing of a character list (the effect of `re.IGNORECASE`
on the ASCII patterns used by the catalog). -/
def lowerChars (l : List Char) : List Char := l.map Char.toLower

/-- `p` occurs as a contiguous sublist at the head of `s`. -/
def headMatch : List Char → List Char → Bool
  | [], _ => true
  | _ :: _, [] => false
  | a :: as, b :: bs => a == b && headMatch as bs

/-- `p` occurs as a contiguous sublist somewhere in `s` (unanchored
substring search, as `re.search` does for literal patterns). -/
def subMatch (p : List Char) : List Char → Bool
  | [] => headMatch p []
  | b :: bs => headMatch p (b :: bs) || subMatch p bs

/-- Embedding of `re.search(p, answer, flags=re.IGNORECASE)` for the
catalog patterns: some alternative of `p` is a case-insensitive substring
of `answer`. -/
def reSearchCI (p : String) (answer : String) : Bool :=
  (splitAlts p.data).any fun alt =>
    subMatch (lowerChars alt) (lowerChars answer.data)

/-- Embedding of Python `str.strip()`: drop whitespace from both ends. -/
def stripChars (l : List Char) : List Char :=
  ((l.dropWhile Char.isWhitespace).reverse.dropWhile Char.isWhitespace).reverse

/-- The patterns of `must_have` that match the answer, in catalog order
(the loop of src/backend/main.py lines 113-118 collects these and counts
them). -/
def hitPatternsOf (c : Challenge) (answer : String) : List String :=
  c.must_have.filter fun p => reSearchCI p answer

/-- `min_len = 40 if level_number in (2, 7) else 25` (line 120). -/
def min_len_of (level_number : Int) : Nat :=
  if level_number = 2 ∨ level_number = 7 then 40 else 25

/-- `long_enough = len(answer.strip()) >= min_len` (line 121). -/
def long_enough_of (level_number : Int) (answer : String) : Bool :=
  decide ((stripChars answer.data).length ≥ min_len_of level_number)

/-- `required_hits = max(2, (len(patterns) + 1) // 2)` (line 124). -/
def required_hits_of (c : Challenge) : Nat :=
  max 2 ((c.must_have.length + 1) / 2)

/-- `passed = (hits >= required_hits) and long_enough` (line 125). -/
def passed_of (level_number : Int) (c : Challenge) (answer : String) : Bool :=
  decide ((hitPatternsOf c answer).length ≥ required_hits_of c)
    && long_enough_of level_number answer

/-- The length-shortfall feedback message (line 129). -/
def shortMsg (min_len : Nat) : String :=
  s!"Answer is a bit short. Aim for at least {min_len} characters."

/-- The missing-concepts feedback message (line 131). -/
def conceptsMsg : String :=
  "Mention a few more key concepts from the hint/goal."

/-- The congratulatory feedback message (line 134). -/
def congratsMsg : String :=
  "Nice — you covered the key ideas for this level."

/-- The feedback list built by lines 127-134, in the fixed append order:
shortfall, then missing concepts, then congratulations. -/
def feedback_of (level_number : Int) (c : Challenge) (answer : String) : List String :=
  (if long_enough_of level_number answer then []
   else [shortMsg (min_len_of level_number)])
  ++ (if (hitPatternsOf c answer).length < required_hits_of c then [conceptsMsg] else [])
  ++ (if passed_of level_number c answer then [congratsMsg] else [])

/-- The verdict assembled by `score_answer` once the challenge has been
found (lines 113-142). -/
def scoreChallenge (level_number : Int) (c : Challenge) (answer : String) : Verdict :=
  { passed := passed_of level_number c answer
    hits := (hitPatternsOf c answer).length
    required_hits := required_hits_of c
    matched := hitPatternsOf c answer
    feedback := feedback_of level_number c answer }

/-- `score_answer(level_number, answer)` (lines 104-142): the dict access
`CHALLENGES[level_number]` can miss (KeyError), hence the `Option`. -/
def score_answer (level_number : Int) (answer : String) : Option Verdict :=
  (CHALLENGES level_number).map fun c => scoreChallenge level_number c answer

/-- A raised `fastapi.HTTPException`, reduced to its status and detail. -/
structure HTTPError where
  status_code : Nat
  detail : String
  deriving Repr, DecidableEq

/-- `GET /levels/\x7blevel_number\x7d` (lines 423-428): 404 outside the
catalog, otherwise the level number together with the challenge content. -/
def get_level (level_number : Int) : Except HTTPError (Int × Challenge) :=
  match CHALLENGES level_number with
  | none => .error ⟨404, "Level not found"⟩
  | some c => .ok (level_number, c)

/-- The response body of `POST /levels/\x7blevel_number\x7d/submit`. -/
structure SubmitResult where
  level_number : Int
  passed : Bool
  hits : Nat
  required_hits : Nat
  feedback : List String
  deriving Repr, DecidableEq

/-- `submit_level` (lines 438-450): 404 outside the catalog, otherwise the
scored verdict projected onto the response fields. -/
def submit_level (level_number : Int) (answer : String) : Except HTTPError SubmitResult :=
  match CHALLENGES level_number with
  | none => .error ⟨404, "Level not found"⟩
  | some c =>
    let result := scoreChallenge level_number c answer
    .ok ⟨level_number, result.passed, result.hits, result.required_hits, result.feedback⟩

/-- One row of the persisted `levels` table. -/
structure LevelRow where
  level_number : Int
  name : String
  description : String
  badge_name : String
  deriving Repr, DecidableEq

/-- The seven canonical rows of the `INSERT INTO levels` statement
(lines 384-392), in statement order. -/
def SEED_ROWS : List LevelRow :=
  [ ⟨1, "The Data Detective", "Inspect and understand messy data", "Data Detective"⟩
  , ⟨2, "The Janitor’s Revenge", "Clean missing values and duplicates", "Data Janitor"⟩
  , ⟨3, "The Filter Wizard", "Filter and index data safely", "Filter Wizard"⟩
  , ⟨4, "The String Surgeon", "Fix strings and dates", "String Surgeon"⟩
  , ⟨5, "The Join Assassin", "Join datasets without explosions", "Join Assassin"⟩
  , ⟨6, "The Shape Shifter", "Reshape data correctly", "Shape Shifter"⟩
  , ⟨7, "The Data Alchemist", "End-to-end wrangling challenge", "Data Alchemist"⟩ ]

/-- The table contains a row with the given `level_number` key. -/
def hasKey (tbl : List LevelRow) (k : Int) : Bool :=
  tbl.any fun r => r.level_number == k

/-- `INSERT ... ON CONFLICT (level_number) DO NOTHING` for one row:
insert-if-absent keyed on `level_number`. -/
def insertIfAbsent (tbl : List LevelRow) (r : LevelRow) : List LevelRow :=
  if hasKey tbl r.level_number then tbl else tbl ++ [r]

/-- `POST /seed` (lines 362-398) on an explicit table state:
`CREATE TABLE IF NOT EXISTS` materialises an empty table when absent,
then every canonical row is inserted-if-absent. The database is assumed
configured (`require_db` succeeded). -/
def seed_levels (db : Option (List LevelRow)) : Option (List LevelRow) :=
  some (SEED_ROWS.foldl insertIfAbsent (db.getD []))

/-- `N` successive invocations of the seed operation. -/
def seedN : Nat → Option (List LevelRow) → Option (List LevelRow)
  | 0, db => db
  | n + 1, db => seedN n (seed_levels db)

/-- `GET /config` (lines 158-160): `bool(os.getenv("DATABASE_URL"))` with
the environment value as `Option String` (`none` = variable unset). An
empty string is falsy in Python. -/
def config (database_url : Option String) : Bool :=
  match database_url with
  | none => false
  | some s => decide (s ≠ "")

/-! ## Helper lemmas -/

/-- A successful score names a catalog challenge and is its rubric verdict. -/
theorem score_answer_some (n : Int) (a : String) (v : Verdict)
    (h : score_answer n a = some v) :
    ∃ c, CHALLENGES n = some c ∧ v = scoreChallenge n c a := by
  unfold score_answer at h
  cases hc : CHALLENGES n with
  | none => rw [hc] at h; cases h
  | some c =>
    rw [hc] at h
    simp only [Option.map_some', Option.some.injEq] at h
    exact ⟨c, rfl, h.symm⟩

/-- Only the seven catalog keys resolve. -/
theorem challenges_cases (n : Int) (c : Challenge) (h : CHALLENGES n = some c) :
    n = 1 ∨ n = 2 ∨ n = 3 ∨ n = 4 ∨ n = 5 ∨ n = 6 ∨ n = 7 := by
  unfold CHALLENGES at h
  split_ifs at h <;> simp_all

/-- Ceiling of a natural number halved, as rounding-up integer division. -/
theorem ceil_half (k : ℕ) : ⌈(k : ℚ) / 2⌉ = (((k + 1) / 2 : ℕ) : ℤ) := by
  have h1 : (k : ℚ) ≤ (((k + 1) / 2 : ℕ) : ℚ) * 2 := by
    have h : k ≤ ((k + 1) / 2) * 2 := by omega
    exact_mod_cast h
  have h2 : (((k + 1) / 2 : ℕ) : ℚ) * 2 ≤ (k : ℚ) + 1 := by
    have h : ((k + 1) / 2) * 2 ≤ k + 1 := by omega
    exact_mod_cast h
  rw [Int.ceil_eq_iff]
  constructor
  · simp only [Int.cast_natCast]
    linarith
  · simp only [Int.cast_natCast]
    linarith

/-- The per-level threshold is always 25 or 40. -/
theorem min_len_of_cases (n : Int) : min_len_of n = 25 ∨ min_len_of n = 40 := by
  unfold min_len_of
  split <;> simp

/-- The shortfall message differs from the concepts message. -/
theorem shortMsg_ne_concepts (n : Int) : shortMsg (min_len_of n) ≠ conceptsMsg := by
  rcases min_len_of_cases n with h | h <;> rw [h] <;> decide

/-- The shortfall message differs from the congratulatory message. -/
theorem shortMsg_ne_congrats (n : Int) : shortMsg (min_len_of n) ≠ congratsMsg := by
  rcases min_len_of_cases n with h | h <;> rw [h] <;> decide

/-- The congratulatory message differs from the concepts message. -/
theorem congrats_ne_concepts : congratsMsg ≠ conceptsMsg := by decide

/-! ## Claims -/

/-- Claim C1: for every level number in the catalog and every answer
string, the verdict's passed flag equals (hits >= required_hits) AND
long_enough, where long_enough is len(trim(answer_text)) >= min_length
and min_length is 40 for levels 2 and 7 and 25 for all other levels. -/
theorem claim_C1 (n : Int) (answer : String) (v : Verdict)
    (hv : score_answer n answer = some v) :
    v.passed = (decide (v.hits ≥ v.required_hits)
      && decide ((stripChars answer.data).length ≥
          (if n = 2 ∨ n = 7 then 40 else 25))) := by
  obtain ⟨c, hc, rfl⟩ := score_answer_some n answer v hv
  rfl

/-- Witness for C1 at level 1 with the empty answer. -/
theorem claim_C1_witness :
    (scoreChallenge 1 challenge1 "").passed
      = (decide ((scoreChallenge 1 challenge1 "").hits
            ≥ (scoreChallenge 1 challenge1 "").required_hits)
        && decide ((stripChars ("" : String).data).length ≥
            (if (1 : Int) = 2 ∨ (1 : Int) = 7 then 40 else 25))) :=
  claim_C1 1 "" (scoreChallenge 1 challenge1 "") rfl

/-- Claim C2: for every level whose challenge has k required patterns,
the verdict's required_hits field equals max(2, ceil(k/2)). -/
theorem claim_C2 (n : Int) (answer : String) (c : Challenge) (v : Verdict)
    (hc : CHALLENGES n = some c) (hv : score_answer n answer = some v) :
    (v.required_hits : ℤ) = max 2 ⌈(c.must_have.length : ℚ) / 2⌉ := by
  obtain ⟨c', hc', rfl⟩ := score_answer_some n answer v hv
  rw [hc] at hc'
  injection hc' with h
  subst h
  show ((max 2 ((c.must_have.length + 1) / 2) : ℕ) : ℤ) = _
  rw [ceil_half, Nat.cast_max]
  rfl

/-- Witness for C2 at level 1 with the empty answer. -/
theorem claim_C2_witness :
    (((scoreChallenge 1 challenge1 "").required_hits : ℤ))
      = max 2 ⌈((challenge1.must_have.length : ℚ)) / 2⌉ :=
  claim_C2 1 "" challenge1 (scoreChallenge 1 challenge1 "") rfl rfl

/-- Claim C5: for every level number outside the catalog, both fetching
the single-level challenge and submitting an answer fail with the 404
Level-not-found error, and no verdict is produced. -/
theorem claim_C5 (n : Int) (h : CHALLENGES n = none) :
    get_level n = .error ⟨404, "Level not found"⟩ ∧
    ∀ answer, submit_level n answer = .error ⟨404, "Level not found"⟩ ∧
      score_answer n answer = none := by
  refine ⟨?_, fun answer => ⟨?_, ?_⟩⟩
  · unfold get_level
    rw [h]
  · unfold submit_level
    rw [h]
  · unfold score_answer
    rw [h]
    rfl

/-- Witness for C5 at level 99. -/
theorem claim_C5_witness :
    get_level 99 = .error ⟨404, "Level not found"⟩ ∧
    submit_level 99 "hello" = .error ⟨404, "Level not found"⟩ ∧
    score_answer 99 "hello" = none :=
  ⟨(claim_C5 99 rfl).1, ((claim_C5 99 rfl).2 "hello").1,
    ((claim_C5 99 rfl).2 "hello").2⟩

/-- Claim C6: scoring is total on strings: for every level number in the
catalog, scoring returns a verdict for every answer string, including the
empty string. -/
theorem claim_C6 (n : Int) (h : (CHALLENGES n).isSome = true) (answer : String) :
    ∃ v, score_answer n answer = some v := by
  rcases ho : CHALLENGES n with _ | c
  · rw [ho] at h
    cases h
  · exact ⟨scoreChallenge n c answer, by unfold score_answer; rw [ho]; rfl⟩

/-- Witness for C6 at level 1 with the empty answer. -/
theorem claim_C6_witness : ∃ v, score_answer 1 "" = some v :=
  claim_C6 1 rfl ""

/-- Claim C7: for every level number in the catalog, scoring the
empty-string answer yields hits = 0, long_enough = false, and
passed = false. -/
theorem claim_C7 (n : Int) (v : Verdict) (hv : score_answer n "" = some v) :
    v.hits = 0 ∧ long_enough_of n "" = false ∧ v.passed = false := by
  obtain ⟨c, hc, rfl⟩ := score_answer_some n "" v hv
  rcases challenges_cases n c hc with rfl | rfl | rfl | rfl | rfl | rfl | rfl <;>
    (injection hc with h) <;> subst h <;> decide

/-- Witness for C7 at level 1. -/
theorem claim_C7_witness :
    (scoreChallenge 1 challenge1 "").hits = 0 ∧
    long_enough_of 1 "" = false ∧
    (scoreChallenge 1 challenge1 "").passed = false :=
  claim_C7 1 (scoreChallenge 1 challenge1 "") rfl

/-- Claim C3 counterexample: the congratulatory message is appended only
when passed, and passed requires the length check, so the shortfall and
congratulatory messages can never co-occur in any feedback list. -/
theorem claim_C3_cex :
    ¬ ∃ (n : Int) (answer : String) (v : Verdict),
        score_answer n answer = some v ∧
        shortMsg (min_len_of n) ∈ v.feedback ∧ congratsMsg ∈ v.feedback := by
  rintro ⟨n, a, v, hv, hs, hcg⟩
  obtain ⟨c, hc, rfl⟩ := score_answer_some n a v hv
  replace hs : shortMsg (min_len_of n) ∈ feedback_of n c a := hs
  replace hcg : congratsMsg ∈ feedback_of n c a := hcg
  unfold feedback_of at hs hcg
  cases hL : long_enough_of n a with
  | false =>
    have hp : passed_of n c a = false := by
      unfold passed_of
      rw [hL, Bool.and_false]
    rw [hL, hp] at hcg
    by_cases hlt : (hitPatternsOf c a).length < required_hits_of c <;>
      simp only [hlt, if_true, if_false, Bool.false_eq_true, List.append_nil,
        List.mem_append, List.mem_singleton, List.not_mem_nil, or_false,
        if_neg, ite_true, ite_false] at hcg
    · rcases hcg with h | h
      · exact shortMsg_ne_congrats n h.symm
      · exact congrats_ne_concepts h
    · exact shortMsg_ne_congrats n hcg.symm
  | true =>
    rw [hL] at hs
    simp only [ite_true, List.nil_append, List.mem_append] at hs
    by_cases hlt : (hitPatternsOf c a).length < required_hits_of c <;>
      by_cases hp : passed_of n c a = true <;>
        simp only [hlt, hp, ite_true, ite_false, if_neg, if_pos,
          List.mem_singleton, List.not_mem_nil, or_false, false_or,
          Bool.not_eq_true] at hs
    · rcases hs with h | h
      · exact shortMsg_ne_concepts n h
      · exact shortMsg_ne_congrats n h
    · exact shortMsg_ne_concepts n hs
    · exact shortMsg_ne_congrats n hs

/-- Claim C3 (amended): feedback is appended additively in the fixed
order shortfall, concepts, congratulations, but the congratulatory
message is appended only when passed: for some level number and answer
where the length check fails but hits >= required_hits, the returned
feedback contains the length-shortfall message and nothing else — in
particular not the congratulatory message. -/
theorem claim_C3_amended :
    ∃ (n : Int) (answer : String) (v : Verdict),
      score_answer n answer = some v ∧
      v.hits ≥ v.required_hits ∧
      long_enough_of n answer = false ∧
      v.feedback = [shortMsg (min_len_of n)] ∧
      congratsMsg ∉ v.feedback :=
  ⟨1, "missing,outlier", scoreChallenge 1 challenge1 "missing,outlier",
    rfl, by decide, by decide, by decide, by decide⟩

/-- Claim C4 counterexample: two scoring calls at level 1 whose verdicts
agree on hits (2) and required_hits (2) but disagree on passed, because
the second answer alone satisfies the length check — so hits and
required_hits do not suffice to verify passed. -/
theorem claim_C4_cex :
    (score_answer 1 "missing,outlier").map Verdict.hits
        = (score_answer 1 "missing outlier aaaaaaaaaaaaaaa").map Verdict.hits ∧
    (score_answer 1 "missing,outlier").map Verdict.required_hits
        = (score_answer 1 "missing outlier aaaaaaaaaaaaaaa").map Verdict.required_hits ∧
    (score_answer 1 "missing,outlier").map Verdict.passed
        ≠ (score_answer 1 "missing outlier aaaaaaaaaaaaaaa").map Verdict.passed := by
  refine ⟨rfl, rfl, ?_⟩
  decide

/-- Claim C4 (amended): hits and required_hits determine the concept
component of passed; together with the length-check outcome they let a
caller verify passed: any two scoring calls whose verdicts agree on hits
and on required_hits, and whose answers agree on the length check, agree
on passed. -/
theorem claim_C4 (n1 n2 : Int) (a1 a2 : String) (v1 v2 : Verdict)
    (h1 : score_answer n1 a1 = some v1) (h2 : score_answer n2 a2 = some v2)
    (hh : v1.hits = v2.hits) (hr : v1.required_hits = v2.required_hits)
    (hl : long_enough_of n1 a1 = long_enough_of n2 a2) :
    v1.passed = v2.passed := by
  obtain ⟨c1, hc1, rfl⟩ := score_answer_some n1 a1 v1 h1
  obtain ⟨c2, hc2, rfl⟩ := score_answer_some n2 a2 v2 h2
  simp only [scoreChallenge] at hh hr
  show passed_of n1 c1 a1 = passed_of n2 c2 a2
  unfold passed_of
  rw [hh, hr, hl]

/-- Witness for the amended C4: two answers to level 1 that agree on
hits, required_hits and the length check also agree on passed. -/
theorem claim_C4_witness :
    (scoreChallenge 1 challenge1 "").passed
      = (scoreChallenge 1 challenge1 "x").passed :=
  claim_C4 1 1 "" "x" (scoreChallenge 1 challenge1 "")
    (scoreChallenge 1 challenge1 "x") rfl rfl (by decide) (by decide) (by decide)

/-- Insert-if-absent preserves every key already present. -/
theorem hasKey_insertIfAbsent (tbl : List LevelRow) (r : LevelRow) (k : Int)
    (h : hasKey tbl k = true) : hasKey (insertIfAbsent tbl r) k = true := by
  unfold insertIfAbsent
  split
  · exact h
  · unfold hasKey at h ⊢
    rw [List.any_append, h, Bool.true_or]

/-- Insert-if-absent establishes the inserted row's key. -/
theorem hasKey_insertIfAbsent_self (tbl : List LevelRow) (r : LevelRow) :
    hasKey (insertIfAbsent tbl r) r.level_number = true := by
  unfold insertIfAbsent
  split
  · assumption
  · unfold hasKey
    rw [List.any_append]
    simp

/-- Folding insert-if-absent preserves every key already present. -/
theorem foldl_hasKey_mono (rows : List LevelRow) (tbl : List LevelRow) (k : Int)
    (h : hasKey tbl k = true) :
    hasKey (rows.foldl insertIfAbsent tbl) k = true := by
  induction rows generalizing tbl with
  | nil => exact h
  | cons r rs ih => exact ih _ (hasKey_insertIfAbsent tbl r k h)

/-- After folding insert-if-absent over a row list, every key of the list
is present. -/
theorem foldl_hasKey_all (rows : List LevelRow) (tbl : List LevelRow) :
    ∀ r ∈ rows, hasKey (rows.foldl insertIfAbsent tbl) r.level_number = true := by
  induction rows generalizing tbl with
  | nil => intro r hr; cases hr
  | cons s rs ih =>
    intro r hr
    rcases List.mem_cons.mp hr with rfl | hr
    · exact foldl_hasKey_mono rs _ _ (hasKey_insertIfAbsent_self tbl r)
    · exact ih (insertIfAbsent tbl s) r hr

/-- Folding insert-if-absent over rows whose keys are all present is the
identity. -/
theorem foldl_insert_noop (rows : List LevelRow) (tbl : List LevelRow)
    (h : ∀ r ∈ rows, hasKey tbl r.level_number = true) :
    rows.foldl insertIfAbsent tbl = tbl := by
  induction rows with
  | nil => rfl
  | cons s rs ih =>
    have hs : insertIfAbsent tbl s = tbl := by
      unfold insertIfAbsent
      rw [if_pos (h s (List.mem_cons_self s rs))]
    show rs.foldl insertIfAbsent (insertIfAbsent tbl s) = tbl
    rw [hs]
    exact ih fun r hr => h r (List.mem_cons_of_mem s hr)

/-- The seed operation is idempotent on any starting table state. -/
theorem seed_levels_idem (db : Option (List LevelRow)) :
    seed_levels (seed_levels db) = seed_levels db := by
  show seed_levels (some (SEED_ROWS.foldl insertIfAbsent (db.getD []))) = _
  unfold seed_levels
  rw [Option.getD_some]
  exact congrArg some (foldl_insert_noop SEED_ROWS _ (foldl_hasKey_all SEED_ROWS _))

/-- Iterating the seed operation after one application changes nothing. -/
theorem seedN_seed (N : Nat) (db : Option (List LevelRow)) :
    seedN N (seed_levels db) = seed_levels db := by
  induction N generalizing db with
  | zero => rfl
  | succ n ih =>
    show seedN n (seed_levels (seed_levels db)) = seed_levels db
    rw [seed_levels_idem]
    exact ih db

/-- Claim C8: seeding is idempotent: invoking the seed operation N times
(any N >= 1) on a fresh database leaves the levels table with exactly the
7 canonical rows keyed by level_number, with no duplicate level_number,
yielding the same final row set as invoking it once (and, the state being
a value rather than an exception, no error on repeated invocations). -/
theorem claim_C8 (N : Nat) (h : 1 ≤ N) :
    seedN N none = seed_levels none ∧
    seedN N none = some SEED_ROWS ∧
    SEED_ROWS.length = 7 ∧
    (SEED_ROWS.map LevelRow.level_number).Nodup := by
  obtain ⟨m, rfl⟩ : ∃ m, N = m + 1 := ⟨N - 1, by omega⟩
  have h1 : seedN (m + 1) none = seed_levels none := seedN_seed m none
  exact ⟨h1, h1.trans rfl, rfl, by decide⟩

/-- Witness for C8 at N = 2. -/
theorem claim_C8_witness :
    seedN 2 none = seed_levels none ∧
    seedN 2 none = some SEED_ROWS ∧
    SEED_ROWS.length = 7 ∧
    (SEED_ROWS.map LevelRow.level_number).Nodup :=
  claim_C8 2 (by decide)

/-- Claim C9 counterexample: an environment where DATABASE_URL is set to
the empty string and one where it is set to a URL are both "set", yet the
/config response differs — Python string truthiness makes the response
depend on the value, not only on whether it is set. -/
theorem claim_C9_cex :
    (some "" : Option String).isSome
        = (some "postgresql://example" : Option String).isSome ∧
    config (some "") ≠ config (some "postgresql://example") := by
  exact ⟨rfl, by decide⟩

/-- The /config response is true exactly when the variable is set to a
non-empty string. -/
theorem config_true_iff (e : Option String) :
    config e = true ↔ ∃ s, e = some s ∧ s ≠ "" := by
  cases e with
  | none => simp [config]
  | some s => simp [config]

/-- Claim C9 (amended): the /config response depends only on whether
DATABASE_URL is set to a non-empty string, never on anything else about
its value: any two environments agreeing on that predicate produce
identical responses (and the response is a single boolean, so the raw
value is never included). -/
theorem claim_C9 (e1 e2 : Option String)
    (h : (∃ s, e1 = some s ∧ s ≠ "") ↔ (∃ s, e2 = some s ∧ s ≠ "")) :
    config e1 = config e2 := by
  have h1 := config_true_iff e1
  have h2 := config_true_iff e2
  cases hc1 : config e1 <;> cases hc2 : config e2
  · rfl
  · rw [hc1] at h1
    rw [hc2] at h2
    exact h1.mpr (h.mpr (h2.mp rfl))
  · rw [hc1] at h1
    rw [hc2] at h2
    exact (h2.mpr (h.mp (h1.mp rfl))).symm
  · rfl

/-- Witness for the amended C9: two different non-empty values give the
same response. -/
theorem claim_C9_witness : config (some "a") = config (some "b") :=
  claim_C9 (some "a") (some "b")
    ⟨fun _ => ⟨"b", rfl, by decide⟩, fun _ => ⟨"a", rfl, by decide⟩⟩

/-- Claim C10: for every level number in the catalog and every answer
string, the verdict's feedback list is non-empty; and when passed is
true, feedback consists of exactly one element, the congratulatory
message. -/
theorem claim_C10 (n : Int) (answer : String) (v : Verdict)
    (hv : score_answer n answer = some v) :
    v.feedback ≠ [] ∧ (v.passed = true → v.feedback = [congratsMsg]) := by
  obtain ⟨c, hc, rfl⟩ := score_answer_some n answer v hv
  constructor
  · show feedback_of n c answer ≠ []
    unfold feedback_of
    cases hL : long_enough_of n answer with
    | false => simp
    | true =>
      rcases Nat.lt_or_ge (hitPatternsOf c answer).length (required_hits_of c)
        with hlt | hge
      · simp [hlt]
      · have hp : passed_of n c answer = true := by
          unfold passed_of
          rw [hL, Bool.and_true, decide_eq_true_eq]
          exact hge
        simp [hp, Nat.not_lt.mpr hge]
  · intro hp
    have hp' : passed_of n c answer = true := hp
    have hpair : decide ((hitPatternsOf c answer).length ≥ required_hits_of c) = true
        ∧ long_enough_of n answer = true := by
      have hq : (decide ((hitPatternsOf c answer).length ≥ required_hits_of c)
          && long_enough_of n answer) = true := hp'
      rw [Bool.and_eq_true] at hq
      exact hq
    have hL : long_enough_of n answer = true := hpair.2
    have hge : (hitPatternsOf c answer).length ≥ required_hits_of c :=
      of_decide_eq_true hpair.1
    show feedback_of n c answer = [congratsMsg]
    unfold feedback_of
    simp [hL, hp', Nat.not_lt.mpr hge]

/-- Witness for C10: a passing answer to level 1 gets exactly the
congratulatory message. -/
theorem claim_C10_witness :
    (scoreChallenge 1 challenge1 "missing duplicate outlier x").feedback ≠ [] ∧
    ((scoreChallenge 1 challenge1 "missing duplicate outlier x").passed = true →
      (scoreChallenge 1 challenge1 "missing duplicate outlier x").feedback
        = [congratsMsg]) :=
  claim_C10 1 "missing duplicate outlier x"
    (scoreChallenge 1 challenge1 "missing duplicate outlier x") rfl
